import Mathlib

/-!
# Verification of the real-time navigation core

Shallow embedding of the navigation backend (`routing.py`, `websocket.py`):
geometry utilities, the traffic-adjustment of route durations, the
connection manager, the per-trip navigation session and the WebSocket
message handler, together with theorems about the specified properties.

Modelling conventions:

* Python floats are modelled as exact rationals (`ℚ`).
* `math.hypot` produces irrational square roots; every use in the source
  feeds either a `min` or a comparison against a non-negative threshold,
  both of which commute with squaring on non-negative values.  The
  embedding therefore carries the *squares* of the source's distances
  (`point_to_segment_sq`, `min_distance_to_route_sq`) and compares them
  against squared thresholds; this is order-isomorphic to the source's
  computation and keeps every definition executable.
* `float("inf")`, the initial accumulator of `min_distance_to_route`, is
  modelled as `⊤` in `WithTop ℚ`.
* Wall-clock reads (`time.time()`, `datetime.now().hour`) are passed in
  as explicit parameters.
* The external OSRM call `fetch_route` is passed in as its outcome for
  the one call a handler step may make (`Except String RouteData`).
-/

namespace MiniGuide

/-! ## Geometry utilities (`routing.py`) -/

/-- Deviation threshold in metres (`DEVIATION_THRESHOLD_M = 50.0`). -/
def DEVIATION_THRESHOLD_M : ℚ := 50

/-- Square of `_point_to_segment(px, py, ax, ay, bx, by)`: the squared
Euclidean distance from point P to segment AB in coordinate space.
The source returns `math.hypot(px - proj_x, py - proj_y)`; this is its
square.  (The source's last parameter `by` is a Lean keyword, renamed
`b_y` — with the leading space mandated for such binders.) -/
def point_to_segment_sq (px py ax ay bx b_y : ℚ) : ℚ :=
  let dx := bx - ax
  let dy := b_y - ay
  if dx = 0 ∧ dy = 0 then
    (px - ax) ^ 2 + (py - ay) ^ 2
  else
    let t := max 0 (min 1 (((px - ax) * dx + (py - ay) * dy) / (dx * dx + dy * dy)))
    (px - (ax + t * dx)) ^ 2 + (py - (ay + t * dy)) ^ 2

/-- Square of `min_distance_to_route(lat, lng, geometry_coords)`: minimum
over consecutive coordinate pairs of the squared segment distance scaled
by `111_000²` (the source scales the unsquared distance by `111_000`).
`geometry_coords` is a GeoJSON list of `(lon, lat)` pairs; the initial
`float("inf")` is `⊤`. -/
def min_distance_to_route_sq (lat lng : ℚ) (geometry_coords : List (ℚ × ℚ)) : WithTop ℚ :=
  ((geometry_coords.zip geometry_coords.tail).map
      (fun ab => (((point_to_segment_sq lng lat ab.1.1 ab.1.2 ab.2.1 ab.2.2) * 111000 ^ 2 : ℚ)
        : WithTop ℚ))).foldl min ⊤

/-- `is_off_route(lat, lng, geometry_coords)`: true when the squared
minimum distance exceeds the squared threshold (source: unsquared
distance `> DEVIATION_THRESHOLD_M`). -/
def is_off_route (lat lng : ℚ) (geometry_coords : List (ℚ × ℚ)) : Bool :=
  decide (((DEVIATION_THRESHOLD_M ^ 2 : ℚ) : WithTop ℚ) < min_distance_to_route_sq lat lng geometry_coords)

/-! ## Traffic simulation (`routing.py`) -/

/-- `_traffic_multiplier()`, with the wall-clock hour made explicit. -/
def traffic_multiplier (hour : ℕ) : ℚ :=
  if 8 ≤ hour ∧ hour < 10 then 6/10
  else if 17 ≤ hour ∧ hour < 20 then 5/10
  else if 22 ≤ hour ∨ hour < 5 then 12/10
  else 1

/-- Round-half-to-even on an exact rational, modelling Python's `round`
applied to the exact value of its argument. -/
def roundHalfEven (x : ℚ) : ℤ :=
  if x - ⌊x⌋ < 1/2 then ⌊x⌋
  else if 1/2 < x - ⌊x⌋ then ⌊x⌋ + 1
  else if Even ⌊x⌋ then ⌊x⌋ else ⌊x⌋ + 1

/-- `round(x, 1)`: round to one decimal place. -/
def round1 (x : ℚ) : ℚ := (roundHalfEven (10 * x) : ℚ) / 10

/-- The traffic label computed inline in `_apply_traffic`. -/
def traffic_label (mult : ℚ) : String :=
  if mult < 6/10 then "heavy"
  else if mult < 1 then "moderate"
  else if mult ≤ 1 then "light"
  else "free-flow"

/-- The dict returned by `_apply_traffic`. -/
structure TrafficInfo where
  raw_duration_s : ℚ
  adjusted_duration_s : ℚ
  trafficMultiplier : ℚ
  trafficLabel : String
deriving DecidableEq

/-- `_apply_traffic(duration_s)`, with the wall-clock hour explicit. -/
def apply_traffic (duration_s : ℚ) (hour : ℕ) : TrafficInfo :=
  let mult := traffic_multiplier hour
  let adjusted := duration_s / mult
  { raw_duration_s := round1 duration_s
    adjusted_duration_s := round1 adjusted
    trafficMultiplier := mult
    trafficLabel := traffic_label mult }

/-! ## Connection manager (`websocket.py`) -/

/-- The observable outcome of one `ConnectionManager.broadcast` call:
the sends attempted (connection, payload) in order, the surviving
membership list, and how many times the payload serializer
(`json.dumps`) was invoked.  Connections are modelled by identifiers. -/
structure BroadcastResult where
  attempts : List (ℕ × String)
  active : List ℕ
  serializer_calls : ℕ
deriving DecidableEq

/-- `ConnectionManager.broadcast(message)`.  `dumps` is the serializer,
`send_ok c` the outcome of `c.send_text` (success/failure), `active` the
membership list `self._active`.  Mirrors the source: serialize once,
attempt every connection collecting failures in `dead`, then
`self._active.remove(ws)` for each dead connection. -/
def ConnectionManager.broadcast (dumps : String → String) (message : String)
    (send_ok : ℕ → Bool) (active : List ℕ) : BroadcastResult :=
  let payload := dumps message
  let dead := active.filter (fun c => !(send_ok c))
  { attempts := active.map (fun c => (c, payload))
    active := dead.foldl (fun acc c => acc.erase c) active
    serializer_calls := 1 }

/-- `ConnectionManager.connect` (after the accept): `self._active.append(ws)`. -/
def ConnectionManager.connect (active : List ℕ) (ws : ℕ) : List ℕ :=
  active ++ [ws]

/-- `ConnectionManager.disconnect(ws)`: `self._active.remove(ws)`.
Python's `list.remove` deletes the first occurrence and raises
`ValueError` when the element is absent; the embedding returns the
error on that path. -/
def ConnectionManager.disconnect (active : List ℕ) (ws : ℕ) : Except String (List ℕ) :=
  if ws ∈ active then .ok (active.erase ws) else .error "list.remove(x): x not in list"

/-! ## Navigation session (`websocket.py`) -/

/-- One entry of the `routes` list of a normalized OSRM response; only
the geometry coordinates matter to the session. -/
structure OsrmRoute where
  coordinates : List (ℚ × ℚ)
deriving DecidableEq

/-- The normalized OSRM response dict stored by `set_route`. -/
structure RouteData where
  routes : List OsrmRoute
deriving DecidableEq

/-- `NavigationSession.__init__` fields.  `destination` is `(lat, lng)`;
`route_geometry` is the GeoJSON `(lon, lat)` list. -/
structure NavigationSession where
  destination : Option (ℚ × ℚ)
  route_geometry : Option (List (ℚ × ℚ))
  route_data : Option RouteData
  last_recalc : ℚ
deriving DecidableEq

/-- The freshly constructed session: all fields `None`, `last_recalc = 0`. -/
def initSession : NavigationSession :=
  { destination := none, route_geometry := none, route_data := none, last_recalc := 0 }

/-- `NavigationSession.set_route(route_data)`, with `time.time()` passed
as `now`.  The geometry is replaced only when `route_data.get("routes")`
is truthy (a non-empty list); `last_recalc` is always refreshed. -/
def NavigationSession.set_route (s : NavigationSession) (rd : RouteData) (now : ℚ) :
    NavigationSession :=
  { s with
    route_data := some rd
    route_geometry :=
      match rd.routes with
      | [] => s.route_geometry
      | r :: _ => some r.coordinates
    last_recalc := now }

/-- `NavigationSession.clear()`: clears the three optional fields; note
that the source does not reset `last_recalc`. -/
def NavigationSession.clear (s : NavigationSession) : NavigationSession :=
  { s with destination := none, route_geometry := none, route_data := none }

/-- `RECALC_COOLDOWN_S = 5`. -/
def RECALC_COOLDOWN_S : ℚ := 5

/-! ## WebSocket message handler (`handle_location_ws`) -/

/-- One inbound client message after JSON decoding and field extraction.
`invalid` stands for a `json.JSONDecodeError`; optional fields model
`msg.get(...)` returning `None` when a key is missing.  For `start_nav`
the third and fourth fields are the already-resolved
`msg.get("lat", msg.get("start_lat"))` / `msg.get("lng", msg.get("start_lng"))`. -/
inductive InMsg where
  | location (lat lng : Option ℚ)
  | start_nav (dest_lat dest_lng start_lat start_lng : Option ℚ)
  | stop_nav
  | invalid
  | other (t : String)
deriving DecidableEq

/-- One outgoing message produced by a handler step: either a direct
reply on the handling client's socket (`reply_error`) or a broadcast to
all connections. -/
inductive OutEvent where
  | reply_error (detail : String)
  | bcast_location (lat lng : ℚ)
  | bcast_route_update (route : RouteData)
  | bcast_reroute (route : RouteData)
  | bcast_nav_stopped
deriving DecidableEq

/-- Whether an outgoing message is an `error` event. -/
def is_error_event : OutEvent → Bool
  | .reply_error _ => true
  | _ => false

/-- Result of handling one inbound message: the session afterwards, the
outgoing messages in emission order, and the number of `fetch_route`
calls made. -/
structure StepResult where
  session : NavigationSession
  events : List OutEvent
  fetch_calls : ℕ
deriving DecidableEq

/-- The guard of the automatic-reroute branch:
`nav_session.route_geometry and nav_session.destination and
is_off_route(lat, lng, ...) and (time.time() - nav_session.last_recalc) > RECALC_COOLDOWN_S`.
An empty geometry list is falsy in Python; a destination tuple is truthy. -/
def reroute_condition (s : NavigationSession) (now lat lng : ℚ) : Bool :=
  match s.route_geometry, s.destination with
  | some g, some _ =>
      !g.isEmpty && is_off_route lat lng g && decide (now - s.last_recalc > RECALC_COOLDOWN_S)
  | _, _ => false

/-- One iteration of the `handle_location_ws` receive loop on message
`msg`, with the session state, the wall clock and the outcome of the (at
most one) `fetch_route` call made explicit.  Faithful to the source:

* `location` with a missing coordinate: `continue` — no reply, no state
  change;
* `location` otherwise: broadcast the position, then if the reroute
  guard holds call `fetch_route`; on success `set_route` + `reroute`
  broadcast, on failure only a `print` (no event, state unchanged);
* `start_nav` with a missing coordinate: `error` reply, no state change;
* `start_nav` otherwise: set `destination` FIRST, then call
  `fetch_route`; on success `set_route` + `route_update` broadcast, on
  failure an `error` reply (the destination assignment is not rolled
  back);
* `stop_nav`: `clear()` + `nav_stopped` broadcast;
* unknown type / invalid JSON: `error` reply. -/
def handle_msg (s : NavigationSession) (now : ℚ) (fetch : Except String RouteData)
    (msg : InMsg) : StepResult :=
  match msg with
  | .invalid => ⟨s, [.reply_error "invalid JSON"], 0⟩
  | .location latO lngO =>
      match latO, lngO with
      | some lat, some lng =>
          if reroute_condition s now lat lng then
            match fetch with
            | .ok rd =>
                ⟨s.set_route rd now, [.bcast_location lat lng, .bcast_reroute rd], 1⟩
            | .error _ => ⟨s, [.bcast_location lat lng], 1⟩
          else ⟨s, [.bcast_location lat lng], 0⟩
      | _, _ => ⟨s, [], 0⟩
  | .start_nav dlO dgO slO sgO =>
      match dlO, dgO, slO, sgO with
      | some dl, some dg, some _, some _ =>
          let s1 := { s with destination := some (dl, dg) }
          match fetch with
          | .ok rd => ⟨s1.set_route rd now, [.bcast_route_update rd], 1⟩
          | .error e => ⟨s1, [.reply_error e], 1⟩
      | _, _, _, _ => ⟨s, [.reply_error "missing coordinates"], 0⟩
  | .stop_nav => ⟨s.clear, [.bcast_nav_stopped], 0⟩
  | .other t => ⟨s, [.reply_error ("unknown type: " ++ t)], 0⟩

/-- Session states reachable from the fresh session by any sequence of
handled messages, any wall-clock values and any `fetch_route` outcomes. -/
inductive Reachable : NavigationSession → Prop where
  | init : Reachable initSession
  | step (s : NavigationSession) (now : ℚ) (fetch : Except String RouteData) (msg : InMsg) :
      Reachable s → Reachable (handle_msg s now fetch msg).session

/-! ## Concrete fixtures used by witnesses and counterexamples -/

/-- A normalized OSRM response with one route whose geometry runs along
the equator from lon 0 to lon 1. -/
def okRoute : RouteData := ⟨[⟨[(0, 0), (1, 0)]⟩]⟩

/-- A session in the Navigating state: destination set, active route
geometry `[(0,0),(1,0)]` (lon, lat), last recalculation at time 0. -/
def navState : NavigationSession :=
  { destination := some (0, 0)
    route_geometry := some [(0, 0), (1, 0)]
    route_data := some okRoute
    last_recalc := 0 }

/-! ## Helper lemmas -/

lemma foldl_erase_skip (x : ℕ) :
    ∀ (ds xs : List ℕ), (∀ d ∈ ds, d ≠ x) →
      List.foldl (fun acc c => acc.erase c) (x :: xs) ds
        = x :: List.foldl (fun acc c => acc.erase c) xs ds := by
  intro ds
  induction ds with
  | nil => intro xs _; rfl
  | cons d ds ih =>
    intro xs h
    have hdx : x ≠ d := (h d (List.mem_cons_self d ds)).symm
    simp only [List.foldl_cons]
    rw [List.erase_cons_tail (by simpa using hdx)]
    exact ih (xs.erase d) (fun d' hd' => h d' (List.mem_cons_of_mem d hd'))

/-- Erasing every element of the failed sublist (in order, with
multiplicity) from the membership list leaves exactly the successes. -/
lemma foldl_erase_filter (p : ℕ → Bool) :
    ∀ l : List ℕ,
      List.foldl (fun acc c => acc.erase c) l (l.filter (fun c => !(p c))) = l.filter p := by
  intro l
  induction l with
  | nil => rfl
  | cons x l ih =>
    by_cases hp : p x = true
    · have h1 : (x :: l).filter (fun c => !(p c)) = l.filter (fun c => !(p c)) := by
        simp [List.filter_cons, hp]
      have h2 : ∀ d ∈ l.filter (fun c => !(p c)), d ≠ x := by
        intro d hd hdx
        have := List.of_mem_filter hd
        rw [hdx] at this
        simp [hp] at this
      rw [h1, foldl_erase_skip x _ l h2, ih, List.filter_cons, if_pos (by simpa using hp)]
    · have hp' : p x = false := by simpa using hp
      have h1 : (x :: l).filter (fun c => !(p c)) = x :: l.filter (fun c => !(p c)) := by
        simp [List.filter_cons, hp']
      rw [h1]
      simp only [List.foldl_cons, List.erase_cons_head]
      rw [ih, List.filter_cons, if_neg (by simp [hp'])]

lemma roundHalfEven_ge_floor (x : ℚ) : ⌊x⌋ ≤ roundHalfEven x := by
  unfold roundHalfEven
  split_ifs <;> omega

lemma roundHalfEven_le_floor_add_one (x : ℚ) : roundHalfEven x ≤ ⌊x⌋ + 1 := by
  unfold roundHalfEven
  split_ifs <;> omega

lemma roundHalfEven_mono {x y : ℚ} (h : x ≤ y) : roundHalfEven x ≤ roundHalfEven y := by
  rcases lt_or_eq_of_le (Int.floor_le_floor h) with hf | hf
  · calc roundHalfEven x ≤ ⌊x⌋ + 1 := roundHalfEven_le_floor_add_one x
      _ ≤ ⌊y⌋ := by omega
      _ ≤ roundHalfEven y := roundHalfEven_ge_floor y
  · unfold roundHalfEven
    rw [← hf]
    have hy : x - ⌊x⌋ ≤ y - ⌊x⌋ := by linarith
    split_ifs <;> first | omega | linarith

lemma round1_mono {x y : ℚ} (h : x ≤ y) : round1 x ≤ round1 y := by
  unfold round1
  have h10 : (10 : ℚ) * x ≤ 10 * y := by linarith
  have hcast : ((roundHalfEven (10 * x) : ℚ)) ≤ (roundHalfEven (10 * y) : ℚ) := by
    exact_mod_cast roundHalfEven_mono h10
  linarith

lemma traffic_multiplier_pos (hour : ℕ) : 0 < traffic_multiplier hour := by
  unfold traffic_multiplier
  split_ifs <;> norm_num

lemma point_to_segment_sq_nonneg (px py ax ay bx b_y : ℚ) :
    0 ≤ point_to_segment_sq px py ax ay bx b_y := by
  rw [point_to_segment_sq]
  dsimp only
  split_ifs <;> positivity

/-- A point that lies exactly on the segment (at parameter `s ∈ [0,1]`)
has squared segment distance zero. -/
lemma point_to_segment_sq_on_segment (px py ax ay bx b_y s : ℚ)
    (hs0 : 0 ≤ s) (hs1 : s ≤ 1)
    (hx : px = ax + s * (bx - ax)) (hy : py = ay + s * (b_y - ay)) :
    point_to_segment_sq px py ax ay bx b_y = 0 := by
  subst hx hy
  rw [point_to_segment_sq]
  dsimp only
  by_cases hd : bx - ax = 0 ∧ b_y - ay = 0
  · rw [if_pos hd]
    obtain ⟨h1, h2⟩ := hd
    rw [h1, h2]
    ring
  · rw [if_neg hd]
    have hpos : 0 < (bx - ax) * (bx - ax) + (b_y - ay) * (b_y - ay) := by
      rcases not_and_or.mp hd with h | h
      · have h1 : 0 < (bx - ax) * (bx - ax) := mul_self_pos.mpr h
        nlinarith [mul_self_nonneg (b_y - ay)]
      · have h1 : 0 < (b_y - ay) * (b_y - ay) := mul_self_pos.mpr h
        nlinarith [mul_self_nonneg (bx - ax)]
    have ht : ((ax + s * (bx - ax) - ax) * (bx - ax) + (ay + s * (b_y - ay) - ay) * (b_y - ay))
        / ((bx - ax) * (bx - ax) + (b_y - ay) * (b_y - ay)) = s := by
      field_simp
      ring
    rw [ht, min_eq_right hs1, max_eq_right hs0]
    ring

lemma foldl_min_le_init (l : List (WithTop ℚ)) : ∀ a : WithTop ℚ, l.foldl min a ≤ a := by
  induction l with
  | nil => intro a; exact le_refl a
  | cons y l ih =>
    intro a
    simp only [List.foldl_cons]
    exact le_trans (ih (min a y)) (min_le_left a y)

lemma foldl_min_le_mem (l : List (WithTop ℚ)) :
    ∀ (a x : WithTop ℚ), x ∈ l → l.foldl min a ≤ x := by
  induction l with
  | nil => intro a x hx; cases hx
  | cons y l ih =>
    intro a x hx
    rcases List.mem_cons.mp hx with rfl | hx
    · simp only [List.foldl_cons]
      exact le_trans (foldl_min_le_init l (min a x)) (min_le_right a x)
    · exact ih (min a y) x hx

lemma le_foldl_min (l : List (WithTop ℚ)) :
    ∀ (a c : WithTop ℚ), c ≤ a → (∀ x ∈ l, c ≤ x) → c ≤ l.foldl min a := by
  induction l with
  | nil => intro a c hc _; exact hc
  | cons y l ih =>
    intro a c hc h
    simp only [List.foldl_cons]
    exact ih (min a y) c (le_min hc (h y (List.mem_cons_self y l)))
      (fun x hx => h x (List.mem_cons_of_mem y hx))

/-- A point lying exactly on one of the polyline's consecutive segments
has a squared minimum polyline distance of zero. -/
lemma min_distance_on_segment (lat lng : ℚ) (coords : List (ℚ × ℚ)) (A B : ℚ × ℚ) (s : ℚ)
    (hmem : (A, B) ∈ coords.zip coords.tail) (hs0 : 0 ≤ s) (hs1 : s ≤ 1)
    (hx : lng = A.1 + s * (B.1 - A.1)) (hy : lat = A.2 + s * (B.2 - A.2)) :
    min_distance_to_route_sq lat lng coords = ((0 : ℚ) : WithTop ℚ) := by
  have hzero : point_to_segment_sq lng lat A.1 A.2 B.1 B.2 = 0 :=
    point_to_segment_sq_on_segment lng lat A.1 A.2 B.1 B.2 s hs0 hs1 hx hy
  have hmem' : ((0 : ℚ) : WithTop ℚ) ∈
      (coords.zip coords.tail).map
        (fun ab => (((point_to_segment_sq lng lat ab.1.1 ab.1.2 ab.2.1 ab.2.2) * 111000 ^ 2 : ℚ)
          : WithTop ℚ)) := by
    have := List.mem_map_of_mem
      (fun ab : (ℚ × ℚ) × (ℚ × ℚ) =>
        (((point_to_segment_sq lng lat ab.1.1 ab.1.2 ab.2.1 ab.2.2) * 111000 ^ 2 : ℚ)
          : WithTop ℚ)) hmem
    simpa [hzero] using this
  refine le_antisymm ?_ ?_
  · exact foldl_min_le_mem _ ⊤ _ hmem'
  · refine le_foldl_min _ ⊤ _ le_top ?_
    intro x hx'
    rcases List.mem_map.mp hx' with ⟨ab, _, rfl⟩
    rw [WithTop.coe_le_coe]
    have := point_to_segment_sq_nonneg lng lat ab.1.1 ab.1.2 ab.2.1 ab.2.2
    positivity

/-- Evaluation: the squared minimum distance from the point
(lat 1, lng 0) to the fixture polyline. -/
lemma min_distance_navState_eval :
    min_distance_to_route_sq 1 0 [(0, 0), (1, 0)] = ((12321000000 : ℚ) : WithTop ℚ) := by
  simp only [min_distance_to_route_sq, List.tail_cons, List.zip_cons_cons, List.zip_nil_right,
    List.map_cons, List.map_nil, List.foldl_cons, List.foldl_nil, min_top_left,
    WithTop.coe_eq_coe]
  norm_num [point_to_segment_sq]

/-- The point (lat 1, lng 0) is off the fixture route. -/
lemma is_off_route_navState : is_off_route 1 0 [(0, 0), (1, 0)] = true := by
  rw [is_off_route, min_distance_navState_eval]
  simp only [WithTop.coe_lt_coe, decide_eq_true_eq]
  norm_num [DEVIATION_THRESHOLD_M]

/-- The reroute guard holds on the fixture session for any time past the
cooldown. -/
lemma reroute_condition_navState {now : ℚ} (h : now > 5) :
    reroute_condition navState now 1 0 = true := by
  rw [reroute_condition]
  simp only [navState, is_off_route_navState]
  simp [RECALC_COOLDOWN_S]
  linarith

/-- The reroute guard requires a set destination. -/
lemma reroute_condition_dest {s : NavigationSession} {now lat lng : ℚ}
    (h : reroute_condition s now lat lng = true) : s.destination ≠ none := by
  rw [reroute_condition] at h
  rcases hg : s.route_geometry with _ | g <;> rcases hd : s.destination with _ | d <;>
    rw [hg, hd] at h <;> simp_all

/-- The reroute guard requires the cooldown to have elapsed. -/
lemma reroute_condition_cooldown {s : NavigationSession} {now lat lng : ℚ}
    (h : reroute_condition s now lat lng = true) :
    now - s.last_recalc > RECALC_COOLDOWN_S := by
  rw [reroute_condition] at h
  rcases hg : s.route_geometry with _ | g <;> rcases hd : s.destination with _ | d <;>
    rw [hg, hd] at h <;> simp_all

/-- The number of engine calls a `location` step makes is decided by the
reroute guard. -/
lemma handle_location_calls (s : NavigationSession) (now : ℚ)
    (fetch : Except String RouteData) (lat lng : ℚ) :
    (handle_msg s now fetch (.location (some lat) (some lng))).fetch_calls
      = if reroute_condition s now lat lng then 1 else 0 := by
  by_cases hc : reroute_condition s now lat lng = true
  · cases fetch <;> simp [handle_msg, hc]
  · have hc' : reroute_condition s now lat lng = false := by simpa using hc
    simp [handle_msg, hc']

/-- A successful reroute commits `set_route`, stamping `last_recalc`. -/
lemma handle_location_session_ok (s : NavigationSession) (now : ℚ) (rd : RouteData)
    (lat lng : ℚ) (hc : reroute_condition s now lat lng = true) :
    (handle_msg s now (.ok rd) (.location (some lat) (some lng))).session
      = s.set_route rd now := by
  simp [handle_msg, hc]

/-! ## Claim theorems -/

/-- C1 (amended): in every session state reachable by the public
operations, a present active route implies a set destination.  The
converse direction of the specified iff-invariant fails (see the
counterexample): a failed `start_nav` leaves the destination set with
no active route. -/
theorem reachable_route_implies_destination (s : NavigationSession) (h : Reachable s)
    (hg : s.route_geometry ≠ none) : s.destination ≠ none := by
  induction h with
  | init => simp [initSession] at hg
  | step s now fetch msg _ ih =>
    rename_i hprev
    revert hg
    cases msg with
    | invalid => exact ih
    | other t => exact ih
    | stop_nav =>
      intro hg
      simp [handle_msg, NavigationSession.clear] at hg
    | location latO lngO =>
      cases latO with
      | none => exact ih
      | some lat =>
        cases lngO with
        | none => exact ih
        | some lng =>
          by_cases hc : reroute_condition s now lat lng = true
          · cases fetch with
            | ok rd =>
              intro _
              have hdest := reroute_condition_dest hc
              simp [handle_msg, hc, NavigationSession.set_route]
              exact hdest
            | error e =>
              have : (handle_msg s now (.error e) (.location (some lat) (some lng))).session
                  = s := by simp [handle_msg, hc]
              rw [this]
              exact ih
          · have hc' : reroute_condition s now lat lng = false := by simpa using hc
            have : (handle_msg s now fetch (.location (some lat) (some lng))).session = s := by
              simp [handle_msg, hc']
            rw [this]
            exact ih
    | start_nav dlO dgO slO sgO =>
      cases dlO with
      | none => exact ih
      | some dl =>
        cases dgO with
        | none => exact ih
        | some dg =>
          cases slO with
          | none => exact ih
          | some sl =>
            cases sgO with
            | none => exact ih
            | some sg =>
              cases fetch with
              | ok rd =>
                intro _
                simp [handle_msg, NavigationSession.set_route]
              | error e =>
                intro _
                simp [handle_msg]

/-- C1 witness: a concrete reachable Navigating state with a present
route, whose destination the theorem shows to be set. -/
theorem reachable_route_implies_destination_witness :
    (handle_msg initSession 0 (.ok okRoute)
        (.start_nav (some 0) (some 0) (some 0) (some 0))).session.destination ≠ none :=
  reachable_route_implies_destination _
    (Reachable.step initSession 0 (.ok okRoute) (.start_nav (some 0) (some 0) (some 0) (some 0))
      Reachable.init)
    (by simp [handle_msg, NavigationSession.set_route, okRoute, initSession])

/-- C1 counterexample: after a `start_nav` whose engine call fails, the
reachable state has a set destination but no active route, refuting the
claimed iff. -/
theorem route_destination_iff_cex :
    Reachable (handle_msg initSession 0 (.error "engine down")
        (.start_nav (some 28) (some 77) (some 28) (some 77))).session
    ∧ (handle_msg initSession 0 (.error "engine down")
        (.start_nav (some 28) (some 77) (some 28) (some 77))).session.destination
        = some (28, 77)
    ∧ (handle_msg initSession 0 (.error "engine down")
        (.start_nav (some 28) (some 77) (some 28) (some 77))).session.route_geometry = none :=
  ⟨Reachable.step initSession 0 (.error "engine down")
      (.start_nav (some 28) (some 77) (some 28) (some 77)) Reachable.init,
    rfl, rfl⟩

/-- C2 (amended): when the engine call of a `start_nav` fails, the error
is surfaced to the caller and the route fields and `last_recalc` are
unchanged, but the destination has already been set to the requested
destination — that partial state is committed. -/
theorem start_failure_commits_destination (s : NavigationSession) (now : ℚ) (err : String)
    (dl dg sl sg : ℚ) :
    handle_msg s now (.error err) (.start_nav (some dl) (some dg) (some sl) (some sg))
      = ⟨{ s with destination := some (dl, dg) }, [.reply_error err], 1⟩ :=
  rfl

/-- C2 counterexample: a failed start from the Idle fixture leaves the
destination set to the requested one, not unset as claimed. -/
theorem start_failure_not_idle_cex :
    (handle_msg initSession 0 (.error "engine down")
        (.start_nav (some 28) (some 77) (some 28) (some 77))).session.destination
      = some (28, 77)
    ∧ initSession.destination = none
    ∧ (handle_msg initSession 0 (.error "engine down")
        (.start_nav (some 28) (some 77) (some 28) (some 77))).events
      = [.reply_error "engine down"] :=
  ⟨rfl, rfl, rfl⟩

/-- C3 (amended): when the engine call of an automatic reroute fails,
the session stays Navigating with its active route, geometry and
`last_recalc` unchanged and the only outgoing message is the location
relay — in particular no `error` event is emitted (the source only
logs the failure). -/
theorem reroute_failure_keeps_route (s : NavigationSession) (now lat lng : ℚ) (err : String)
    (g : List (ℚ × ℚ)) (d : ℚ × ℚ)
    (hg : s.route_geometry = some g) (hne : g ≠ []) (hd : s.destination = some d)
    (hoff : is_off_route lat lng g = true)
    (hcool : now - s.last_recalc > RECALC_COOLDOWN_S) :
    handle_msg s now (.error err) (.location (some lat) (some lng))
      = ⟨s, [.bcast_location lat lng], 1⟩
    ∧ ((handle_msg s now (.error err) (.location (some lat) (some lng))).events.filter
        is_error_event) = [] := by
  have hc : reroute_condition s now lat lng = true := by
    rw [reroute_condition, hg, hd]
    simp [hne, hoff]
    exact hcool
  constructor
  · simp [handle_msg, hc]
  · simp [handle_msg, hc, is_error_event]

/-- C3 witness: the fixture Navigating session, an off-route sample past
the cooldown, a failing engine call. -/
theorem reroute_failure_keeps_route_witness :
    handle_msg navState 10 (.error "engine down") (.location (some 1) (some 0))
      = ⟨navState, [.bcast_location 1 0], 1⟩ :=
  (reroute_failure_keeps_route navState 10 1 0 "engine down" [(0, 0), (1, 0)] (0, 0)
      rfl (by simp) rfl is_off_route_navState
      (by norm_num [navState, RECALC_COOLDOWN_S])).1

/-- C3 counterexample: on that same failed reroute attempt (the engine
was called: `fetch_calls = 1`) no error event is broadcast, refuting the
claimed `error` broadcast; route and state are indeed unchanged. -/
theorem reroute_failure_no_error_event_cex :
    (handle_msg navState 10 (.error "engine down") (.location (some 1) (some 0))).fetch_calls = 1
    ∧ ((handle_msg navState 10 (.error "engine down")
        (.location (some 1) (some 0))).events.filter is_error_event) = []
    ∧ (handle_msg navState 10 (.error "engine down") (.location (some 1) (some 0))).session
      = navState := by
  have hc : reroute_condition navState 10 1 0 = true :=
    reroute_condition_navState (by norm_num)
  refine ⟨?_, ?_, ?_⟩ <;> simp [handle_msg, hc, is_error_event]

/-- C4 (amended): two off-route samples less than the cooldown apart
trigger at most one engine call, provided the attempted engine calls
succeed.  When the first attempt fails the cooldown stamp is not
refreshed, so a second call can occur (see the counterexample). -/
theorem debounce_single_call_on_success (s : NavigationSession)
    (now₁ now₂ lat₁ lng₁ lat₂ lng₂ : ℚ) (rd₁ rd₂ : RouteData)
    (hgap : now₂ - now₁ < RECALC_COOLDOWN_S) :
    (handle_msg s now₁ (.ok rd₁) (.location (some lat₁) (some lng₁))).fetch_calls
      + (handle_msg (handle_msg s now₁ (.ok rd₁) (.location (some lat₁) (some lng₁))).session
          now₂ (.ok rd₂) (.location (some lat₂) (some lng₂))).fetch_calls ≤ 1 := by
  by_cases hc1 : reroute_condition s now₁ lat₁ lng₁ = true
  · rw [handle_location_calls, if_pos hc1,
      handle_location_session_ok s now₁ rd₁ lat₁ lng₁ hc1, handle_location_calls]
    by_cases hc2 : reroute_condition (s.set_route rd₁ now₁) now₂ lat₂ lng₂ = true
    · have hcool := reroute_condition_cooldown hc2
      have hlast : (s.set_route rd₁ now₁).last_recalc = now₁ := rfl
      rw [hlast] at hcool
      linarith
    · have hc2' : reroute_condition (s.set_route rd₁ now₁) now₂ lat₂ lng₂ = false := by
        simpa using hc2
      rw [if_neg (by simp [hc2'])]
  · have hc1' : reroute_condition s now₁ lat₁ lng₁ = false := by simpa using hc1
    rw [handle_location_calls, if_neg (by simp [hc1']), handle_location_calls]
    split_ifs <;> norm_num

/-- C4 witness: the fixture Navigating session, a successful reroute at
time 10 followed by a second off-route sample at time 12. -/
theorem debounce_single_call_on_success_witness :
    (handle_msg navState 10 (.ok okRoute) (.location (some 1) (some 0))).fetch_calls
      + (handle_msg (handle_msg navState 10 (.ok okRoute) (.location (some 1) (some 0))).session
          12 (.ok okRoute) (.location (some 1) (some 0))).fetch_calls ≤ 1 :=
  debounce_single_call_on_success navState 10 12 1 0 1 0 okRoute okRoute
    (by norm_num [RECALC_COOLDOWN_S])

/-- C4 counterexample: with a failing engine, two off-route samples two
seconds apart (10 and 12, cooldown 5) each trigger an engine call — two
calls in total, refuting the claimed at-most-one regardless of
success/failure. -/
theorem debounce_two_calls_on_failure_cex :
    (handle_msg navState 10 (.error "engine down") (.location (some 1) (some 0))).fetch_calls
      + (handle_msg
          (handle_msg navState 10 (.error "engine down") (.location (some 1) (some 0))).session
          12 (.error "engine down") (.location (some 1) (some 0))).fetch_calls = 2
    ∧ (12 : ℚ) - 10 < RECALC_COOLDOWN_S := by
  have hc1 : reroute_condition navState 10 1 0 = true :=
    reroute_condition_navState (by norm_num)
  have hc2 : reroute_condition navState 12 1 0 = true :=
    reroute_condition_navState (by norm_num)
  have hsess : (handle_msg navState 10 (.error "engine down")
      (.location (some 1) (some 0))).session = navState := by
    simp [handle_msg, hc1]
  constructor
  · rw [hsess, handle_location_calls, handle_location_calls, if_pos hc1, if_pos hc2]
  · norm_num [RECALC_COOLDOWN_S]

/-- C5 (amended): the traffic adjustment yields multiplier 1 and label
"light" at hour 10, multiplier 0.6 and label "moderate" (not "heavy":
the `< 0.6` threshold excludes 0.6 itself) at hour 8, and multiplier 1.2
and label "free-flow" at hour 23. -/
theorem traffic_boundary_hours :
    (apply_traffic 100 10).trafficMultiplier = 1
    ∧ (apply_traffic 100 10).trafficLabel = "light"
    ∧ (apply_traffic 100 8).trafficMultiplier = 6/10
    ∧ (apply_traffic 100 8).trafficLabel = "moderate"
    ∧ (apply_traffic 100 23).trafficMultiplier = 12/10
    ∧ (apply_traffic 100 23).trafficLabel = "free-flow" := by
  norm_num [apply_traffic, traffic_multiplier, traffic_label]

/-- C5 counterexample: at hour 8 the multiplier is 0.6 but the label is
"moderate", not the claimed "heavy". -/
theorem traffic_hour8_label_cex :
    (apply_traffic 100 8).trafficMultiplier = 6/10
    ∧ (apply_traffic 100 8).trafficLabel ≠ "heavy" := by
  refine ⟨by norm_num [apply_traffic, traffic_multiplier], ?_⟩
  have h : (apply_traffic 100 8).trafficLabel = "moderate" := by
    norm_num [apply_traffic, traffic_multiplier, traffic_label]
  rw [h]
  decide

/-- C6 (amended): the adjusted duration equals the raw duration divided
by the traffic multiplier and then rounded to one decimal place;
consequently (rounding being monotone) a multiplier below 1 yields an
adjusted duration at least the (rounded) raw duration, and a multiplier
above 1 at most it. -/
theorem adjusted_duration_rounded (d : ℚ) (hour : ℕ) (hd : 0 ≤ d) :
    (apply_traffic d hour).adjusted_duration_s = round1 (d / traffic_multiplier hour)
    ∧ (traffic_multiplier hour < 1 →
        (apply_traffic d hour).raw_duration_s ≤ (apply_traffic d hour).adjusted_duration_s)
    ∧ (1 < traffic_multiplier hour →
        (apply_traffic d hour).adjusted_duration_s ≤ (apply_traffic d hour).raw_duration_s) := by
  have hpos := traffic_multiplier_pos hour
  refine ⟨rfl, ?_, ?_⟩
  · intro hm
    have hle : d ≤ d / traffic_multiplier hour := by
      rw [le_div_iff₀ hpos]
      nlinarith
    exact round1_mono hle
  · intro hm
    have hle : d / traffic_multiplier hour ≤ d := by
      rw [div_le_iff₀ hpos]
      nlinarith
    exact round1_mono hle

/-- C6 witness: a raw duration of 2 seconds at hour 0 (night free-flow,
multiplier 1.2). -/
theorem adjusted_duration_rounded_witness :
    (apply_traffic 2 0).adjusted_duration_s = round1 (2 / traffic_multiplier 0)
    ∧ (traffic_multiplier 0 < 1 →
        (apply_traffic 2 0).raw_duration_s ≤ (apply_traffic 2 0).adjusted_duration_s)
    ∧ (1 < traffic_multiplier 0 →
        (apply_traffic 2 0).adjusted_duration_s ≤ (apply_traffic 2 0).raw_duration_s) :=
  adjusted_duration_rounded 2 0 (by norm_num)

/-- C6 counterexample: at hour 8 (multiplier 0.6) a raw duration of 1
second produces an adjusted duration of 1.7, which differs from the
exact quotient 1/0.6 = 5/3; the produced value is the quotient rounded
to one decimal, not the quotient itself. -/
theorem adjusted_duration_exact_div_cex :
    (apply_traffic 1 8).adjusted_duration_s ≠ 1 / traffic_multiplier 8 := by
  have h1 : traffic_multiplier 8 = 6/10 := by norm_num [traffic_multiplier]
  have h2 : round1 (1 / (6/10 : ℚ)) = 17/10 := by
    norm_num [round1, roundHalfEven]
  rw [show (apply_traffic 1 8).adjusted_duration_s
      = round1 (1 / traffic_multiplier 8) from rfl, h1, h2]
  norm_num

/-- C7: a broadcast serializes the payload once, attempts delivery of
that single payload to every registered connection in order, removes
exactly the connections whose send failed, keeps every connection whose
send succeeded, and the membership count afterwards is the number of
survivors. -/
theorem broadcast_membership_selfheal (dumps : String → String) (message : String)
    (send_ok : ℕ → Bool) (active : List ℕ) :
    (ConnectionManager.broadcast dumps message send_ok active).attempts
        = active.map (fun c => (c, dumps message))
    ∧ (ConnectionManager.broadcast dumps message send_ok active).active
        = active.filter send_ok
    ∧ (ConnectionManager.broadcast dumps message send_ok active).active.length
        = (active.filter send_ok).length
    ∧ (ConnectionManager.broadcast dumps message send_ok active).serializer_calls = 1 := by
  refine ⟨rfl, foldl_erase_filter send_ok active, ?_, rfl⟩
  rw [show (ConnectionManager.broadcast dumps message send_ok active).active
      = active.filter send_ok from foldl_erase_filter send_ok active]

/-- C8 (amended): `detach` removes (the first occurrence of) a
connection that is a member, decreasing its count; detaching a
connection that is NOT a member raises an error instead of succeeding,
so detach is not idempotent. -/
theorem detach_removes_member (active : List ℕ) (ws : ℕ) :
    (ws ∈ active →
      ConnectionManager.disconnect active ws = .ok (active.erase ws)
      ∧ (active.erase ws).count ws = active.count ws - 1)
    ∧ (ws ∉ active →
      ConnectionManager.disconnect active ws = .error "list.remove(x): x not in list") := by
  constructor
  · intro h
    exact ⟨by rw [ConnectionManager.disconnect, if_pos h], List.count_erase_self ws active⟩
  · intro h
    rw [ConnectionManager.disconnect, if_neg h]

/-- C8 witness: a member is removed; a non-member raises. -/
theorem detach_removes_member_witness :
    ConnectionManager.disconnect [5, 7] 5 = .ok [7]
    ∧ ConnectionManager.disconnect [7] 5 = .error "list.remove(x): x not in list" :=
  ⟨((detach_removes_member [5, 7] 5).1 (by decide)).1,
    (detach_removes_member [7] 5).2 (by decide)⟩

/-- C8 counterexample: detaching twice in a row differs from detaching
once — the second detach of the only member raises rather than leaving
membership unchanged, refuting idempotence and the claim that detaching
a non-member succeeds. -/
theorem detach_not_idempotent_cex :
    ConnectionManager.disconnect [5] 5 = .ok []
    ∧ ConnectionManager.disconnect [] 5 = .error "list.remove(x): x not in list" := by
  constructor <;> rfl

/-- C9 (amended): a `start_nav` with a missing coordinate yields an
error reply and leaves the session unchanged; undecodable JSON yields an
error reply and leaves the session unchanged; but a `location` message
with a missing coordinate is silently skipped — the session is left
unchanged yet NO error reply is sent. -/
theorem malformed_input_handling (s : NavigationSession) (now : ℚ)
    (fetch : Except String RouteData) (dl dg sl sg latO lngO : Option ℚ) :
    (dl = none ∨ dg = none ∨ sl = none ∨ sg = none →
      handle_msg s now fetch (.start_nav dl dg sl sg)
        = ⟨s, [.reply_error "missing coordinates"], 0⟩)
    ∧ handle_msg s now fetch .invalid = ⟨s, [.reply_error "invalid JSON"], 0⟩
    ∧ (latO = none ∨ lngO = none →
      handle_msg s now fetch (.location latO lngO) = ⟨s, [], 0⟩) := by
  refine ⟨?_, rfl, ?_⟩
  · intro h
    cases dl <;> cases dg <;> cases sl <;> cases sg <;> simp_all [handle_msg]
  · intro h
    cases latO <;> cases lngO <;> simp_all [handle_msg]

/-- C9 witness: a `start_nav` missing its destination latitude, and a
`location` missing its longitude, on the Idle fixture. -/
theorem malformed_input_handling_witness :
    handle_msg initSession 0 (.ok okRoute) (.start_nav none (some 77) (some 28) (some 77))
      = ⟨initSession, [.reply_error "missing coordinates"], 0⟩
    ∧ handle_msg initSession 0 (.ok okRoute) (.location (some 28) none)
      = ⟨initSession, [], 0⟩ :=
  ⟨(malformed_input_handling initSession 0 (.ok okRoute) none (some 77) (some 28) (some 77)
      (some 28) none).1 (Or.inl rfl),
    (malformed_input_handling initSession 0 (.ok okRoute) none (some 77) (some 28) (some 77)
      (some 28) none).2.2 (Or.inr rfl)⟩

/-- C9 counterexample: a `location` message missing its longitude
produces NO reply at all (the handler silently continues), refuting the
claim that every malformed message gets an error response; the state is
indeed unchanged. -/
theorem malformed_location_silent_cex :
    (handle_msg initSession 0 (.ok okRoute) (.location (some 28) none)).events = []
    ∧ (handle_msg initSession 0 (.ok okRoute) (.location (some 28) none)).session
      = initSession :=
  ⟨rfl, rfl⟩

/-- C10: a point lying exactly on one of the polyline's segments has
squared minimum distance zero, is never flagged off-route, and no
non-negative threshold `t` (compared as squares, which is
order-equivalent to the source's comparison of unsquared distances) can
flag it. -/
theorem on_segment_not_off_route (lat lng : ℚ) (coords : List (ℚ × ℚ)) (A B : ℚ × ℚ) (s : ℚ)
    (hmem : (A, B) ∈ coords.zip coords.tail) (hs0 : 0 ≤ s) (hs1 : s ≤ 1)
    (hx : lng = A.1 + s * (B.1 - A.1)) (hy : lat = A.2 + s * (B.2 - A.2)) :
    min_distance_to_route_sq lat lng coords = ((0 : ℚ) : WithTop ℚ)
    ∧ is_off_route lat lng coords = false
    ∧ ∀ t : ℚ, 0 ≤ t → ¬ (((t ^ 2 : ℚ) : WithTop ℚ) < min_distance_to_route_sq lat lng coords) := by
  have hmin := min_distance_on_segment lat lng coords A B s hmem hs0 hs1 hx hy
  refine ⟨hmin, ?_, ?_⟩
  · rw [is_off_route, hmin]
    simp only [WithTop.coe_lt_coe, decide_eq_false_iff_not, not_lt]
    norm_num [DEVIATION_THRESHOLD_M]
  · intro t ht
    rw [hmin, WithTop.coe_lt_coe]
    intro hlt
    nlinarith

/-- C10 witness: the midpoint of the fixture segment, threshold-free
conclusions evaluated on it. -/
theorem on_segment_not_off_route_witness :
    is_off_route 0 (1/2) [(0, 0), (1, 0)] = false :=
  (on_segment_not_off_route 0 (1/2) [(0, 0), (1, 0)] (0, 0) (1, 0) (1/2)
      (by simp) (by norm_num) (by norm_num) (by norm_num) (by norm_num)).2.1

end MiniGuide
